import Mathlib

/-!
Verification of the EyeHear speech-session core.

The definitions below are a shallow embedding of the session logic of
`src/components/SpeechTranscriber.tsx` (the React component holding the
speech-session state machine) and of the platform adapter
`src/services/speech/SpeechService.ts`.  React state hooks and mutable refs
are modelled as fields of an explicit state record; each handler or callback
of the source becomes a pure state transformer.  Wall-clock instants
(`Date.now()`) are modelled as natural numbers handed to the transformers.
Toast notifications are modelled as optional values returned next to the
state.
-/

namespace EyeHear

/-- One recognition result inside a result event window
(`event.results[i]` with `result[0].transcript` and `result.isFinal`). -/
structure SpeechRes where
  text : String
  isFinal : Bool
deriving Repr, DecidableEq

/-- A committed transcript segment (interface `TranscriptSegment`). -/
structure TranscriptSegment where
  id : String
  text : String
  timestamp : Nat
  isFinal : Bool
deriving Repr, DecidableEq

/-- Session-level toast notifications relevant to the claims. -/
inductive Notice where
  | sessionTimedOut
  | recordingStopped
deriving Repr, DecidableEq

/-- User-facing error categories raised by `handleError`. -/
inductive ErrNotice where
  | networkErr
  | notAllowedErr
  | genericErr
deriving Repr, DecidableEq

/-- The component state of `SpeechTranscriber`: React `useState` values and
the mutable refs, flattened into one record.  `recognitionActive` stands for
`recognitionRef.current !== null`; the two timeout fields record whether the
corresponding timeout handles are set. -/
structure TState where
  isSupported : Bool
  isListening : Bool
  transcript : List TranscriptSegment
  currentInterim : String
  wordCount : Nat
  sessionStart : Option Nat
  sessionDuration : Nat
  showSaveDialog : Bool
  saveTitle : String
  finalizedText : String
  lastInterimText : String
  isRestarting : Bool
  recognitionActive : Bool
  restartTimeoutSet : Bool
  sessionTimeoutSet : Bool
deriving Repr, DecidableEq

/-- `MAX_SESSION_DURATION = 30 * 60 * 1000` (milliseconds). -/
def maxSessionDuration : Nat := 30 * 60 * 1000

/-- `RESTART_INTERVAL = 55 * 1000` (milliseconds). -/
def restartInterval : Nat := 55 * 1000

/-- JavaScript `s.split(' ')` on the underlying character list: splits at
every single space character, keeping empty pieces. -/
def splitOnSpace : List Char → List (List Char)
  | [] => [[]]
  | c :: cs =>
    if c = ' ' then [] :: splitOnSpace cs
    else
      match splitOnSpace cs with
      | [] => [[c]]
      | t :: ts => (c :: t) :: ts

/-- `s.split(' ').filter(word => word.length > 0).length` on a character
list. -/
def countTokL (cs : List Char) : Nat :=
  ((splitOnSpace cs).filter (fun w => w ≠ [])).length

/-- `s.split(' ').filter(word => word.length > 0).length` as used by
`handleResult` and `saveTranscript`. -/
def countTok (s : String) : Nat := countTokL s.data

/-- JavaScript `s.trim()` on a character list: strip leading and trailing
whitespace. -/
def jsTrimL (cs : List Char) : List Char :=
  ((cs.dropWhile Char.isWhitespace).reverse.dropWhile Char.isWhitespace).reverse

/-- JavaScript `s.trim()`. -/
def jsTrim (s : String) : String := ⟨jsTrimL s.data⟩

/-- The accumulation `finalTranscript += transcript + ' '` over the final
results of one event window (the loop body of `handleResult`). -/
def finalConcat : List SpeechRes → String
  | [] => ""
  | r :: rs => if r.isFinal then r.text ++ " " ++ finalConcat rs else finalConcat rs

/-- The accumulation `interimTranscript += transcript` over the non-final
results of one event window (the loop body of `handleResult`). -/
def interimConcat : List SpeechRes → String
  | [] => ""
  | r :: rs => if r.isFinal then interimConcat rs else r.text ++ interimConcat rs

/-- `handleResult` of `SpeechTranscriber.tsx` (lines 157-195): drops the
event while the restart guard is set; otherwise splits the event window into
the final and the interim accumulation, appends a segment, extends
`finalizedTextRef`, adds the token count of the final accumulation to the
word count and clears the interim on a final part, and overwrites the
interim when only interim text arrived.  `now` stands for `Date.now()`. -/
def handleResult (ev : List SpeechRes) (now : Nat) (s : TState) : TState :=
  if s.isRestarting then s else
  let finalT := finalConcat ev
  let interimT := interimConcat ev
  let s1 :=
    if finalT ≠ "" then
      { s with
        transcript := s.transcript ++ [⟨toString now, jsTrim finalT, now, true⟩],
        finalizedText := s.finalizedText ++ finalT,
        wordCount := s.wordCount + countTok finalT,
        currentInterim := "",
        lastInterimText := "" }
    else s
  if interimT ≠ "" ∧ finalT = "" then
    { s1 with currentInterim := interimT, lastInterimText := interimT }
  else s1

/-- `handleError` of `SpeechTranscriber.tsx` (lines 198-231): drops the
event while the restart guard is set; returns without any state change on
`no-speech`; otherwise raises the mapped toast and sets `isListening` to
false (the `setIsListening(false)` after the switch runs for every error
kind that did not return early). -/
def handleError (err : String) (s : TState) : TState × Option ErrNotice :=
  if s.isRestarting then (s, none) else
  if err = "no-speech" then (s, none) else
  let n : ErrNotice :=
    if err = "network" then .networkErr
    else if err = "not-allowed" then .notAllowedErr
    else .genericErr
  ({ s with isListening := false }, some n)

/-- The save-dialog title template of `stopListening`, with the formatted
date and time represented by the clock value. -/
def mkSaveTitle (now : Nat) : String := "Átirat " ++ toString now

/-- `stopListening` of `SpeechTranscriber.tsx` (lines 360-394): detaches and
stops the recognition instance and nulls the ref, clears the restart and the
session timeouts, sets `isListening` false and clears the restart guard,
and opens the save dialog with a fresh title when there is content
(`transcript.length > 0 || currentInterim.trim()`). -/
def stopListening (now : Nat) (s : TState) : TState :=
  let s1 := { s with
    recognitionActive := false,
    restartTimeoutSet := false,
    sessionTimeoutSet := false,
    isListening := false,
    isRestarting := false }
  if s.transcript.length > 0 ∨ jsTrim s.currentInterim ≠ "" then
    { s1 with showSaveDialog := true, saveTitle := mkSaveTitle now }
  else s1

/-- One firing of the 1 Hz session-duration interval (lines 90-118): the
interval exists only while `isListening` and `sessionStartTime` are set; it
recomputes the duration and, at or past `MAX_SESSION_DURATION`, runs
`stopListening` and raises the distinct timeout toast. -/
def durationTick (now : Nat) (s : TState) : TState × Option Notice :=
  match s.sessionStart with
  | none => (s, none)
  | some t0 =>
    if s.isListening then
      let d := now - t0
      let s1 := { s with sessionDuration := d }
      if d ≥ maxSessionDuration then
        (stopListening now s1, some .sessionTimedOut)
      else (s1, none)
    else (s, none)

/-- The synchronous part of `restartRecognition` (lines 244-281): a no-op
unless listening and not already restarting; otherwise it sets the
re-entrancy guard and detaches and stops the old instance (the ref itself
is kept until the delayed part replaces it). -/
def restartTrigger (s : TState) : TState :=
  if ¬ s.isListening ∨ s.isRestarting then s
  else { s with isRestarting := true }

/-- The delayed part of `restartRecognition` (the `setTimeout` body):
creates a replacement instance, reattaches the listeners and tries to start
it; on success the guard is cleared and the next restart is scheduled, on a
thrown start the guard is cleared without rescheduling. -/
def restartComplete (startOk : Bool) (s : TState) : TState :=
  if ¬ s.isSupported then s
  else if startOk then
    { s with recognitionActive := true, isRestarting := false, restartTimeoutSet := true }
  else
    { s with recognitionActive := true, isRestarting := false }

/-- The synchronous prefix of `startListening` (lines 302-357): true iff the
support check passes, so that a microphone permission request is issued and
a continuation is pending. -/
def startRequested (s : TState) : Bool := s.isSupported

/-- The continuation of `startListening` after the awaited permission
request resolves: returns on denial; otherwise creates a recognition
instance (null when unsupported), resets the whole session state, attaches
the listeners, and on a successful `start()` sets `isListening` and
schedules the first restart.  No generation or epoch token is consulted. -/
def startContinue (granted : Bool) (startOk : Bool) (now : Nat) (s : TState) : TState :=
  if ¬ granted then s
  else if ¬ s.isSupported then s
  else
    let s1 := { s with
      transcript := [],
      currentInterim := "",
      wordCount := 0,
      sessionStart := some now,
      sessionDuration := 0,
      finalizedText := "",
      lastInterimText := "",
      recognitionActive := true }
    if startOk then { s1 with isListening := true, restartTimeoutSet := true }
    else s1

/-- A row written by `saveTranscript` into the `transcripts` table. -/
structure SavedRow where
  title : String
  content : String
  word_count : Nat
  duration_seconds : Nat
  user_id : Nat
deriving Repr, DecidableEq

/-- `saveTranscript` of `SpeechTranscriber.tsx` (lines 397-450): builds the
full content from the finalized text plus the pending interim, refuses an
empty content and a missing user, and otherwise inserts the row with the
word count extended by the token count of the pending interim. -/
def saveTranscript (s : TState) (user : Option Nat) : Option SavedRow :=
  let fullContent := s.finalizedText ++ (if s.currentInterim ≠ "" then " " ++ s.currentInterim else "")
  if jsTrim fullContent = "" then none
  else
    match user with
    | none => none
    | some uid =>
      some {
        title := if s.saveTitle ≠ "" then s.saveTitle else "Mentett átirat",
        content := jsTrim fullContent,
        word_count := s.wordCount + (if s.currentInterim ≠ "" then countTok s.currentInterim else 0),
        duration_seconds := s.sessionDuration / 1000,
        user_id := uid }

/-- The component state right after a successful `startListening` at clock
0: a fresh listening session with an empty accumulator. -/
def initialTState : TState := {
  isSupported := true,
  isListening := true,
  transcript := [],
  currentInterim := "",
  wordCount := 0,
  sessionStart := some 0,
  sessionDuration := 0,
  showSaveDialog := false,
  saveTitle := "",
  finalizedText := "",
  lastInterimText := "",
  isRestarting := false,
  recognitionActive := true,
  restartTimeoutSet := true,
  sessionTimeoutSet := false }

/-- The mounted component before any session: supported, idle. -/
def idleTState : TState := {
  isSupported := true,
  isListening := false,
  transcript := [],
  currentInterim := "",
  wordCount := 0,
  sessionStart := none,
  sessionDuration := 0,
  showSaveDialog := false,
  saveTitle := "",
  finalizedText := "",
  lastInterimText := "",
  isRestarting := false,
  recognitionActive := false,
  restartTimeoutSet := false,
  sessionTimeoutSet := false }

/-- Feeding a sequence of result events through `handleResult`. -/
def processEvents (evs : List (List SpeechRes)) (s : TState) : TState :=
  evs.foldl (fun st ev => handleResult ev 0 st) s

/-- The texts of the final results of a sequence of events, in order. -/
def finalTexts (evs : List (List SpeechRes)) : List String :=
  evs.flatMap (fun ev => (ev.filter (fun r => r.isFinal)).map (fun r => r.text))

/-- Concatenation of a list of texts with single spaces, on the character
level (`t1 ++ " " ++ t2 ++ ... ++ tn`). -/
def intercalateSp : List String → List Char
  | [] => []
  | [t] => t.data
  | t :: ts => t.data ++ ' ' :: intercalateSp ts

/-- The state of `SpeechServiceImpl` in `SpeechService.ts`: the two
listening flags and the web recognition reference (`webRecognition`,
modelled as an optional instance identifier).  `native` is the
platform flag `Capacitor.isNativePlatform()`, `webSupported` records
whether the web recognition constructor exists, and `nativeOk` whether the
native plugin start succeeds. -/
structure SvcState where
  isListening : Bool
  nativeListening : Bool
  webRecognition : Option Nat
  native : Bool
  webSupported : Bool
  nativeOk : Bool
deriving Repr, DecidableEq

/-- `SpeechServiceImpl.stop` (lines 199-214 of `SpeechService.ts`): clears
`isListening`; on the native platform with an active native session it
stops the plugin and removes the listeners, otherwise it stops and nulls a
present web instance; with nothing active it is a plain flag clear.  Thrown
native stop errors are caught inside, so the operation is total. -/
def svcStop (v : SvcState) : SvcState :=
  let v1 := { v with isListening := false }
  if v1.native ∧ v1.nativeListening then { v1 with nativeListening := false }
  else if v1.webRecognition.isSome then { v1 with webRecognition := none }
  else v1

/-- `SpeechServiceImpl.start` (lines 105-125 of `SpeechService.ts`): when
already listening it first awaits its own `stop()`, then starts the native
or the web backend and sets `isListening`.  A missing web constructor or a
failing native plugin start surfaces as a thrown error. -/
def svcStart (v : SvcState) (newId : Nat) : Except String SvcState :=
  let v1 := if v.isListening then svcStop v else v
  if v1.native then
    if v1.nativeOk then .ok { v1 with nativeListening := true, isListening := true }
    else .error "Failed to start native speech recognition"
  else
    if ¬ v1.webSupported then .error "Speech recognition not supported in this browser"
    else .ok { v1 with webRecognition := some newId, isListening := true }

/-- How many underlying recognition instances are currently active. -/
def activeCount (v : SvcState) : Nat :=
  (if v.nativeListening then 1 else 0) + (if v.webRecognition.isSome then 1 else 0)

/-- A web-platform adapter that is currently started. -/
def webActiveSvc : SvcState := {
  isListening := true,
  nativeListening := false,
  webRecognition := some 0,
  native := false,
  webSupported := true,
  nativeOk := true }

/-- A web-platform adapter that is stopped. -/
def webIdleSvc : SvcState := {
  isListening := false,
  nativeListening := false,
  webRecognition := none,
  native := false,
  webSupported := true,
  nativeOk := true }

/-- The stopped web adapter after a successful start of instance 4. -/
def webStartedSvc : SvcState :=
  { webIdleSvc with isListening := true, webRecognition := some 4 }

/-- Following the words of the spec (for comparison with the code): the
sanitization strips the angle-bracket characters. -/
def specSanitize (t : String) : String :=
  ⟨t.data.filter (fun c => !(c == '<' || c == '>'))⟩

/-- Splitting at every whitespace character, keeping empty pieces. -/
def splitOnWs : List Char → List (List Char)
  | [] => [[]]
  | c :: cs =>
    if c.isWhitespace then [] :: splitOnWs cs
    else
      match splitOnWs cs with
      | [] => [[c]]
      | t :: ts => (c :: t) :: ts

/-- Following the words of the spec (for comparison with the code): the
number of whitespace-separated non-empty tokens in the sanitized final
texts joined with single spaces. -/
def specClaimWordCount (ts : List String) : Nat :=
  ((splitOnWs (intercalateSp (ts.map specSanitize))).filter (fun w => w ≠ [])).length

/-- A fresh session in which only the interim text `szia` is pending. -/
def pendingInterimState : TState :=
  { initialTState with currentInterim := "szia", lastInterimText := "szia" }

/-- A listening session in the middle of a restart (guard set). -/
def restartingState : TState := { initialTState with isRestarting := true }

/-! ### Helper lemmas about the tokenizer and the trim -/

theorem splitOnSpace_ne_nil (cs : List Char) : splitOnSpace cs ≠ [] := by
  induction cs with
  | nil => simp [splitOnSpace]
  | cons c cs ih =>
    simp only [splitOnSpace]
    split
    · simp
    · cases h : splitOnSpace cs with
      | nil => simp
      | cons t ts => simp

theorem splitOnSpace_append_space (u v : List Char) :
    splitOnSpace (u ++ ' ' :: v) = splitOnSpace u ++ splitOnSpace v := by
  induction u with
  | nil => simp [splitOnSpace]
  | cons c u ih =>
    by_cases hc : c = ' '
    · simp [splitOnSpace, hc, ih]
    · cases h : splitOnSpace u with
      | nil => exact absurd h (splitOnSpace_ne_nil u)
      | cons t ts =>
        simp only [List.cons_append, splitOnSpace, if_neg hc]
        rw [show u.append (' ' :: v) = u ++ ' ' :: v from rfl, ih, h]
        simp

theorem countTokL_append_space (u v : List Char) :
    countTokL (u ++ ' ' :: v) = countTokL u + countTokL v := by
  simp [countTokL, splitOnSpace_append_space, List.filter_append]

theorem countTok_finalConcat (ev : List SpeechRes) :
    countTok (finalConcat ev)
      = ((ev.filter (fun r => r.isFinal)).map (fun r => countTok r.text)).sum := by
  induction ev with
  | nil => rfl
  | cons r rs ih =>
    by_cases hf : r.isFinal
    · have hd : (r.text ++ " " ++ finalConcat rs).data
          = r.text.data ++ ' ' :: (finalConcat rs).data := by
        rw [String.data_append, String.data_append]
        simp
      rw [show finalConcat (r :: rs) = r.text ++ " " ++ finalConcat rs by simp [finalConcat, hf]]
      rw [countTok, hd, countTokL_append_space]
      simp only [countTok] at ih
      simp [hf, countTok, ih]
    · simp [finalConcat, hf, ih]

theorem countTokL_intercalateSp (ts : List String) :
    countTokL (intercalateSp ts) = (ts.map countTok).sum := by
  induction ts with
  | nil => rfl
  | cons t ts ih =>
    cases ts with
    | nil => simp [intercalateSp, countTok]
    | cons t2 ts2 =>
      rw [show intercalateSp (t :: t2 :: ts2) = t.data ++ ' ' :: intercalateSp (t2 :: ts2) from rfl]
      rw [countTokL_append_space, ih]
      simp [countTok]

theorem jsTrimL_append_space (cs : List Char) : jsTrimL (cs ++ [' ']) = jsTrimL cs := by
  unfold jsTrimL
  rw [List.dropWhile_append]
  split
  · next he =>
    have : cs.dropWhile Char.isWhitespace = [] := by simpa using he
    simp [this]
  · next he =>
    simp

theorem handleResult_wordCount (ev : List SpeechRes) (now : Nat) (s : TState)
    (h : s.isRestarting = false) :
    (handleResult ev now s).wordCount = s.wordCount + countTok (finalConcat ev) ∧
    (handleResult ev now s).isRestarting = false := by
  have h0 : countTok "" = 0 := rfl
  simp only [handleResult, h]
  split_ifs with h1 h2 h3 <;> simp_all

theorem stopListening_fields (now : Nat) (s : TState) :
    (stopListening now s).isListening = false ∧
    (stopListening now s).isSupported = s.isSupported ∧
    (stopListening now s).transcript = s.transcript ∧
    (stopListening now s).currentInterim = s.currentInterim ∧
    (stopListening now s).finalizedText = s.finalizedText ∧
    (stopListening now s).wordCount = s.wordCount ∧
    (stopListening now s).sessionDuration = s.sessionDuration := by
  simp only [stopListening]
  split_ifs <;> simp

theorem processEvents_wordCount (evs : List (List SpeechRes)) (s : TState)
    (h : s.isRestarting = false) :
    (processEvents evs s).wordCount = s.wordCount + ((finalTexts evs).map countTok).sum ∧
    (processEvents evs s).isRestarting = false := by
  induction evs generalizing s with
  | nil => simp [processEvents, finalTexts, h]
  | cons ev evs ih =>
    have hs := handleResult_wordCount ev 0 s h
    have hrec := ih (handleResult ev 0 s) hs.2
    have hp : processEvents (ev :: evs) s = processEvents evs (handleResult ev 0 s) := rfl
    constructor
    · rw [hp, hrec.1, hs.1, countTok_finalConcat]
      simp [finalTexts, List.map_map, Function.comp_def]
      omega
    · rw [hp]
      exact hrec.2

/-! ### Claim C1: word count -/

/-- C1 counterexample: the claim says the word count equals the number of
whitespace-separated tokens in the sanitized final texts joined with single
spaces.  After the final events `< >` and `a(tab)b` the code holds word
count 3 (it neither sanitizes nor splits at non-space whitespace), while
the claimed value is 2. -/
theorem c1_wordCount_claim_counterexample :
    (processEvents [[⟨"< >", true⟩], [⟨"a\tb", true⟩]] initialTState).wordCount = 3 ∧
    specClaimWordCount ["< >", "a\tb"] = 2 ∧
    (processEvents [[⟨"< >", true⟩], [⟨"a\tb", true⟩]] initialTState).wordCount ≠
      specClaimWordCount ["< >", "a\tb"] := by decide

/-- C1 amended: after any sequence of result events in one session the word
count equals the number of single-space-separated non-empty tokens in the
raw (unsanitized) final texts joined with single spaces; interleaved
interim events never change it (the right-hand side does not mention
them). -/
theorem c1_wordCount_raw_tokens (evs : List (List SpeechRes)) :
    (processEvents evs initialTState).wordCount = countTokL (intercalateSp (finalTexts evs)) := by
  rw [countTokL_intercalateSp]
  have h := (processEvents_wordCount evs initialTState rfl).1
  rw [h]
  simp [initialTState]

/-! ### Claim C2: commit on stop -/

/-- C2 counterexample: with the interim text `szia` pending and no final
event yet, `stopListening` does not promote the interim into a
`TranscriptSegment`: the committed segment sequence stays empty, so its
last segment is not `szia` as claimed. -/
theorem c2_commit_on_stop_counterexample :
    pendingInterimState.currentInterim = "szia" ∧
    pendingInterimState.transcript = [] ∧
    (stopListening 0 pendingInterimState).transcript = [] := by decide

/-- C2 amended: `stopListening` leaves the committed segment sequence and
the pending interim text unchanged (no segment is created from the
interim); the pending interim is instead folded into the saved row by
`saveTranscript`, whose content is the interim text when nothing was
finalized, so the speech is not dropped — but it never appears as a
segment. -/
theorem c2_stop_keeps_interim_for_save (now uid : Nat) (s : TState)
    (h1 : s.currentInterim = "szia") (h2 : s.finalizedText = "") (h3 : s.wordCount = 0) :
    (stopListening now s).transcript = s.transcript ∧
    (stopListening now s).currentInterim = "szia" ∧
    saveTranscript (stopListening now s) (some uid)
      = some
          { title := mkSaveTitle now,
            content := "szia",
            word_count := 1,
            duration_seconds := s.sessionDuration / 1000,
            user_id := uid } := by
  have hsz : jsTrim ("szia" : String) ≠ "" := by decide
  have hcond : s.transcript.length > 0 ∨ jsTrim s.currentInterim ≠ "" := Or.inr (h1 ▸ hsz)
  have hR : stopListening now s =
      { s with
        recognitionActive := false,
        restartTimeoutSet := false,
        sessionTimeoutSet := false,
        isListening := false,
        isRestarting := false,
        showSaveDialog := true,
        saveTitle := mkSaveTitle now } := by
    simp only [stopListening]
    rw [if_pos hcond]
  rw [hR]
  refine ⟨rfl, h1, ?_⟩
  have htitle : mkSaveTitle now ≠ "" := by
    intro hh
    have hd := congrArg String.data hh
    rw [mkSaveTitle, String.data_append] at hd
    simp at hd
  have e1 : ("szia" : String) ≠ "" := by decide
  have e2 : jsTrim (("" : String) ++ (" " ++ "szia")) ≠ "" := by decide
  have e3 : jsTrim (("" : String) ++ (" " ++ "szia")) = "szia" := by decide
  have e4 : countTok ("szia" : String) = 1 := by decide
  simp only [saveTranscript, h1, h2, h3, if_pos e1, if_neg e2, e3, e4, if_pos htitle]
  simp

/-- C2 witness. -/
theorem c2_witness :
    (stopListening 0 pendingInterimState).transcript = pendingInterimState.transcript ∧
    (stopListening 0 pendingInterimState).currentInterim = "szia" ∧
    saveTranscript (stopListening 0 pendingInterimState) (some 7)
      = some
          { title := mkSaveTitle 0,
            content := "szia",
            word_count := 1,
            duration_seconds := pendingInterimState.sessionDuration / 1000,
            user_id := 7 } :=
  c2_stop_keeps_interim_for_save 0 7 pendingInterimState rfl rfl rfl

/-! ### Claim C3: sanitization -/

/-- C3 counterexample: the claim says the committed segment text is
sanitized so that it contains no angle brackets.  The final event
`<script>alert(1)</script>hello` yields a committed segment whose text is
the raw trimmed input and still contains the character `<`. -/
theorem c3_sanitize_counterexample :
    ((handleResult [⟨"<script>alert(1)</script>hello", true⟩] 0 initialTState).transcript.map
      (fun g => g.text)) = ["<script>alert(1)</script>hello"] ∧
    ("<script>alert(1)</script>hello".data.contains '<') = true := by decide

/-- C3 amended: `handleResult` performs no sanitization at all: a final
result event commits a segment whose text is exactly the raw event text,
trimmed — angle brackets included — and the text still includes the
spoken part. -/
theorem c3_segment_text_is_raw_trimmed (t : String) (now : Nat) (s : TState)
    (h : s.isRestarting = false) :
    (handleResult [⟨t, true⟩] now s).transcript
      = s.transcript ++ [⟨toString now, jsTrim t, now, true⟩] := by
  have hfc : finalConcat [⟨t, true⟩] = t ++ " " := by
    simp [finalConcat]
  have hne : (t ++ " ") ≠ "" := by
    intro hh
    have hd := congrArg String.data hh
    rw [String.data_append] at hd
    simp at hd
  have htrim : jsTrim (t ++ " ") = jsTrim t := by
    unfold jsTrim
    rw [String.data_append]
    rw [show (" " : String).data = [' '] from rfl]
    rw [jsTrimL_append_space]
  have hic : interimConcat [⟨t, true⟩] = "" := by
    simp [interimConcat]
  simp only [handleResult, h, hfc, hic, htrim]
  simp [hne]

/-- C3 witness. -/
theorem c3_witness :
    (handleResult [⟨"<b>x", true⟩] 5 initialTState).transcript
      = initialTState.transcript ++ [⟨toString 5, jsTrim "<b>x", 5, true⟩] :=
  c3_segment_text_is_raw_trimmed "<b>x" 5 initialTState rfl

/-! ### Claim C4: session ceiling -/

/-- C4: while the session is listening, once the 1 Hz duration check
observes an elapsed time at or past `MAX_SESSION_DURATION` (30 minutes),
it runs the stop path itself — no manual stop call — leaving the session
not listening and raising the distinguished timeout notification. -/
theorem c4_session_ceiling (now t0 : Nat) (s : TState)
    (h0 : s.sessionStart = some t0) (h1 : s.isListening = true)
    (h2 : maxSessionDuration ≤ now - t0) :
    (durationTick now s).1.isListening = false ∧
    (durationTick now s).2 = some Notice.sessionTimedOut ∧
    maxSessionDuration = 30 * 60 * 1000 := by
  simp only [durationTick, h0, h1, if_true]
  rw [if_pos h2]
  exact ⟨(stopListening_fields now _).1, rfl, rfl⟩

/-- C4 witness. -/
theorem c4_witness :
    (durationTick 1800000 initialTState).1.isListening = false ∧
    (durationTick 1800000 initialTState).2 = some Notice.sessionTimedOut ∧
    maxSessionDuration = 30 * 60 * 1000 :=
  c4_session_ceiling 1800000 0 initialTState rfl rfl (by decide)

/-! ### Claim C5: restart re-entrancy guard -/

/-- C5: while the re-entrancy guard is set, triggering another restart is a
no-op, and every result or error event is dropped whole: nothing is
committed, the interim text is untouched, and no session error
surfaces. -/
theorem c5_restart_guard_drops_events (s : TState) (h : s.isRestarting = true) :
    restartTrigger s = s ∧
    (∀ ev now, handleResult ev now s = s) ∧
    (∀ err, handleError err s = (s, none)) := by
  refine ⟨?_, ?_, ?_⟩
  · unfold restartTrigger
    simp [h]
  · intro ev now
    unfold handleResult
    simp [h]
  · intro err
    unfold handleError
    simp [h]

/-- C5 witness. -/
theorem c5_witness :
    restartTrigger restartingState = restartingState ∧
    handleResult [⟨"hello", true⟩] 0 restartingState = restartingState ∧
    handleError "network" restartingState = (restartingState, none) :=
  ⟨(c5_restart_guard_drops_events restartingState rfl).1,
   (c5_restart_guard_drops_events restartingState rfl).2.1 [⟨"hello", true⟩] 0,
   (c5_restart_guard_drops_events restartingState rfl).2.2 "network"⟩

/-! ### Claim C6: per-kind error policy -/

/-- C6 counterexample: the claim says a `network` error is reported but the
session stays listening.  In the code every error kind other than
`no-speech` falls through to `setIsListening(false)`: from a listening
state the `network` error leaves the session not listening. -/
theorem c6_network_error_counterexample :
    initialTState.isListening = true ∧
    (handleError "network" initialTState).1.isListening = false ∧
    (handleError "network" initialTState).2 = some ErrNotice.networkErr := by decide

/-- C6 amended: `no-speech` is filtered with no state change; every other
error kind — `not-allowed`, `network`, `audio-capture` and unrecognized
alike — is reported under its mapped category and forces the session out
of listening. -/
theorem c6_error_policy (err : String) (s : TState) (h : s.isRestarting = false) :
    (err = "no-speech" → handleError err s = (s, none)) ∧
    (err ≠ "no-speech" →
      (handleError err s).1 = { s with isListening := false } ∧
      (handleError err s).2 = some (if err = "network" then ErrNotice.networkErr
        else if err = "not-allowed" then ErrNotice.notAllowedErr
        else ErrNotice.genericErr)) := by
  constructor
  · intro he
    unfold handleError
    simp [h, he]
  · intro he
    unfold handleError
    simp [h, he]

/-- C6 witness. -/
theorem c6_witness :
    handleError "no-speech" initialTState = (initialTState, none) ∧
    (handleError "audio-capture" initialTState).1 = { initialTState with isListening := false } ∧
    (handleError "audio-capture" initialTState).2 = some ErrNotice.genericErr := by
  refine ⟨(c6_error_policy "no-speech" initialTState rfl).1 rfl,
    ((c6_error_policy "audio-capture" initialTState rfl).2 (by decide)).1, ?_⟩
  have h := ((c6_error_policy "audio-capture" initialTState rfl).2 (by decide)).2
  simpa using h

/-! ### Claim C7: stale start continuation -/

/-- C7 counterexample: a start is pending (a permission request was
issued from the idle mounted state), stop is called at clock 3, and the
permission later resolves granted at clock 5 — the session then enters
listening, although the claim requires it to stay stopped. -/
theorem c7_stale_start_counterexample :
    startRequested idleTState = true ∧
    (startContinue true true 5 (stopListening 3 idleTState)).isListening = true := by decide

/-- C7 amended: no epoch or generation token exists: the continuation of a
pending start survives an interleaved stop, so when the permission request
resolves granted (and the recognition start succeeds) the session
transitions to listening even though stop was called in between. -/
theorem c7_no_epoch_discard (nowStop nowGrant : Nat) (s : TState)
    (h : s.isSupported = true) :
    (startContinue true true nowGrant (stopListening nowStop s)).isListening = true := by
  have hsup : (stopListening nowStop s).isSupported = true := by
    unfold stopListening
    split_ifs <;> simpa
  unfold startContinue
  simp [hsup]

/-- C7 witness. -/
theorem c7_witness :
    (startContinue true true 7 (stopListening 2 idleTState)).isListening = true :=
  c7_no_epoch_discard 2 7 idleTState rfl

/-! ### Claim C8: idempotent stop -/

/-- C8: stop is idempotent at both levels.  Running `stopListening` twice
with the same clock yields the same state as running it once, and the
adapter `stop` applied to its own result is a fixed point — stopping an
already stopped adapter changes nothing and takes no error path (both
transformers are total; the only throwing call inside the adapter stop is
caught).  The platform hypothesis rules out the unreachable junk states
that hold a web instance on the native platform. -/
theorem c8_stop_idempotent (now : Nat) (s : TState) (v : SvcState)
    (hv : v.native = true → v.webRecognition = none) :
    stopListening now (stopListening now s) = stopListening now s ∧
    svcStop (svcStop v) = svcStop v := by
  constructor
  · by_cases hc : s.transcript.length > 0 ∨ jsTrim s.currentInterim ≠ ""
    · simp [stopListening, hc]
    · simp [stopListening, hc]
  · obtain ⟨il, nl, wr, nat, ws, nk⟩ := v
    cases nat <;> cases nl <;> cases wr <;> simp_all [svcStop]

/-- C8 witness. -/
theorem c8_witness :
    stopListening 0 (stopListening 0 pendingInterimState) = stopListening 0 pendingInterimState ∧
    svcStop (svcStop webActiveSvc) = svcStop webActiveSvc :=
  c8_stop_idempotent 0 pendingInterimState webActiveSvc (by decide)

/-! ### Claim C9: empty text events -/

/-- C9 counterexample: the claim says a result whose text is empty after
trimming creates no segment, and hence that every committed segment is
non-empty.  A final event with whitespace-only text makes the final
accumulation the non-empty string of spaces, so the code commits a
segment whose text trims to the empty string. -/
theorem c9_empty_segment_counterexample :
    ((handleResult [⟨" ", true⟩] 0 initialTState).transcript.map (fun g => g.text)) = [""] := by
  decide

/-- C9 amended: only an interim result with the exactly-empty text is
ignored; a whitespace-only interim does update the interim text, and a
final result always commits a segment — even with empty text, whose
segment text is then empty — so committed segments are not guaranteed
non-empty. -/
theorem c9_empty_text_policy (now : Nat) (s : TState) (h : s.isRestarting = false) :
    handleResult [⟨"", false⟩] now s = s ∧
    (handleResult [⟨" ", false⟩] now s).currentInterim = " " ∧
    (handleResult [⟨"", true⟩] now s).transcript.length = s.transcript.length + 1 := by
  refine ⟨?_, ?_, ?_⟩
  · unfold handleResult
    simp [h, finalConcat, interimConcat]
  · unfold handleResult
    simp [h, finalConcat, interimConcat]
  · unfold handleResult
    simp [h, finalConcat, interimConcat]

/-- C9 witness. -/
theorem c9_witness :
    handleResult [⟨"", false⟩] 3 initialTState = initialTState ∧
    (handleResult [⟨" ", false⟩] 3 initialTState).currentInterim = " " ∧
    (handleResult [⟨"", true⟩] 3 initialTState).transcript.length
      = initialTState.transcript.length + 1 :=
  c9_empty_text_policy 3 initialTState rfl

/-! ### Claim C10: adapter start while active -/

/-- C10 counterexample: the claim says a second `start` without an
intervening `stop` fails with an already-active adapter error.  On an
already started web adapter, `start` succeeds: it silently stops the old
instance and starts a replacement. -/
theorem c10_already_active_counterexample :
    svcStart webActiveSvc 1 = Except.ok { webActiveSvc with webRecognition := some 1 } := by
  rfl

/-- C10 amended: calling the adapter `start` while already started first
runs the adapter `stop` and then starts a replacement instance without any
error; after the successful start exactly one underlying recognition
instance is active. -/
theorem c10_start_replaces_instance (v : SvcState) (newId : Nat)
    (hn : v.native = false) (hs : v.webSupported = true) (hl : v.nativeListening = false) :
    svcStart v newId = Except.ok { v with isListening := true, webRecognition := some newId } ∧
    activeCount { v with isListening := true, webRecognition := some newId } = 1 := by
  constructor
  · obtain ⟨il, nl, wr, nat, ws, nk⟩ := v
    simp only at hn hs hl
    subst hn
    subst hs
    subst hl
    cases il <;> cases wr <;> simp [svcStart, svcStop]
  · simp [activeCount, hl]

/-- C10 witness. -/
theorem c10_witness :
    svcStart webIdleSvc 4 = Except.ok webStartedSvc ∧ activeCount webStartedSvc = 1 :=
  c10_start_replaces_instance webIdleSvc 4 rfl rfl rfl

end EyeHear
